import Mathlib

/-!
Shallow embedding of the `walrus-sim` batch-orchestration core
(`src/walrus_sim/processor.py` and the interrupt handler of
`src/walrus_sim/cli.py`).

External effects are made explicit so that every source function becomes a
pure Lean function:
* the filesystem of per-item marker files is a list of path strings (`FS`);
* the behaviour of the external `walrus` / `sui` binaries on a given item
  (whether each call succeeds and the values it reports) is carried as data
  on the item records;
* token amounts are kept in integer smallest units (frost).  The source
  converts every amount to decimal token units by dividing it by 10^9
  (Python float division) before comparing, subtracting or reporting it.
  The conversion is applied uniformly to the balance and to every cost, so
  in exact arithmetic `cost / 10^9 > avail / 10^9` iff `cost > avail` and
  `(avail - cost) / 10^9 = avail / 10^9 - cost / 10^9`; the loop is
  therefore modelled directly on the integer amounts (the float rounding
  itself is not modelled).
-/

set_option autoImplicit false
set_option linter.unusedVariables false

namespace WalrusSim

/-! ## External client invoker: `run_walrus_command`, processor.py lines 14-21 -/

/-- JSON values, as produced by `json.loads`. -/
inductive Json where
  | null : Json
  | bool : Bool → Json
  | num : Int → Json
  | str : String → Json
  | arr : List Json → Json
  | obj : List (String × Json) → Json

/-- Python evaluation of `v[0]` on a decoded JSON value: a list yields its
first element (`IndexError` when empty), a string yields its first
character, a dict looks up the integer key `0` (always a `KeyError`, since
keys decoded by `json.loads` are strings), and any other value raises
`TypeError`. -/
def indexZero : Json → Except String Json
  | Json.arr [] => Except.error "IndexError: list index out of range"
  | Json.arr (x :: _) => Except.ok x
  | Json.str s =>
    match s.data with
    | [] => Except.error "IndexError: string index out of range"
    | c :: _ => Except.ok (Json.str (String.mk [c]))
  | Json.obj _ => Except.error "KeyError: 0"
  | _ => Except.error "TypeError: value is not subscriptable"

/-- `run_walrus_command`: the subprocess is summarised by its exit code and
its decoded standard output (`stdout = none` stands for output that is not
well-formed JSON); the function returns `json.loads(result.stdout)[0]`.
The source calls `subprocess.run` without `check=True`, so `exitCode` is
never examined. -/
def run_walrus_command (exitCode : Int) (stdout : Option Json) : Except String Json :=
  match stdout with
  | none => Except.error "json.decoder.JSONDecodeError"
  | some v => indexZero v

/-! ## Simulate path: `process_images` and `simulate_image`,
processor.py lines 113-189 -/

/-- The marker filesystem: the set of marker files currently on disk. -/
abbrev FS := List String

/-- `path.with_suffix(".json")`: candidates are identified by their stem
(path without the image extension). -/
def markerPath (stem : String) : String := stem ++ ".json"

/-- One eligible input file (a candidate WorkItem) together with the
externally determined behaviour of the dry-run client call on it. -/
structure SimItem where
  stem : String
  ok : Bool
  blobId : String
  unencodedSize : Nat
  encodedSize : Nat
  storageCost : Nat
  encodingType : String
  errMsg : String
deriving DecidableEq

/-- The success record built by `simulate_image` (lines 174-181). -/
structure SimResult where
  img_path : String
  blobId : String
  unencodedSize : Nat
  encodedSize : Nat
  storageCost : Nat
  encodingType : String
deriving DecidableEq

/-- The error record `{"image": ..., "error": ...}` (line 186 and line 92). -/
structure SimError where
  image : String
  error : String
deriving DecidableEq

/-- `simulate_image` (lines 170-186): on success it builds the result record
and writes it to the item's marker file; on any exception it returns an
error record and writes nothing.  A success record never carries an
`"error"` key, so the classification in `process_images` agrees with
`ok`. -/
def simulate_image (fs : FS) (it : SimItem) : (SimResult ⊕ SimError) × FS :=
  if it.ok then
    (Sum.inl ⟨it.stem, it.blobId, it.unencodedSize, it.encodedSize,
      it.storageCost, it.encodingType⟩,
     fs.insert (markerPath it.stem))
  else
    (Sum.inr ⟨it.stem, it.errMsg⟩, fs)

/-- Outcome of the executor loop: the two outcome lists plus the marker
filesystem after all tasks ran. -/
structure TasksOut where
  results : List SimResult
  errors : List SimError
  fs : FS
deriving DecidableEq

/-- The executor loop of `process_images` (lines 131-138): maps
`simulate_image` over the selected tasks and routes each outcome to
`results` or `errors` according to the presence of an `"error"` key. -/
def runTasks (fs : FS) : List SimItem → TasksOut
  | [] => ⟨[], [], fs⟩
  | it :: rest =>
    match simulate_image fs it with
    | (Sum.inl r, fs') =>
      let o := runTasks fs' rest
      ⟨r :: o.results, o.errors, o.fs⟩
    | (Sum.inr e, fs') =>
      let o := runTasks fs' rest
      ⟨o.results, e :: o.errors, o.fs⟩

/-- Deleting every candidate's marker file: both the `fresh` wipe
(lines 117-120) and the `clean` sweep (lines 149-152) unlink each existing
path of `json_paths`. -/
def deleteMarkers (fs : FS) (items : List SimItem) : FS :=
  fs.filter (fun f => !(items.any (fun it => markerPath it.stem == f)))

/-- The selection loop (lines 122-129): the two `continue` branches skip an
item exactly when the existence of its marker differs from the `resume`
flag, so an item is kept when existence equals `resume`. -/
def selectTasks (resume : Bool) (fs : FS) (items : List SimItem) : List SimItem :=
  items.filter (fun it => decide (markerPath it.stem ∈ fs) == resume)

/-- The items a run of `process_images` actually processes: selection after
the optional fresh wipe. -/
def selectedItems (fs : FS) (items : List SimItem) (resume fresh : Bool) : List SimItem :=
  selectTasks resume (if fresh then deleteMarkers fs items else fs) items

/-- The totals dict of `process_images` (lines 158-166). -/
structure SimTotals where
  unencoded : Nat
  encoded : Nat
  cost : Nat
  totalBlobIds : Nat
  uniqueBlobIds : Nat
  duplicateBlobIds : Nat
  hasDuplicates : Bool
deriving DecidableEq

/-- Builds the totals dict of `process_images` from the results and the
(possibly gated) duplicate count. -/
def simTotals (results : List SimResult) (duplicates : Nat) : SimTotals :=
  ⟨(results.map (fun r => r.unencodedSize)).sum,
   (results.map (fun r => r.encodedSize)).sum,
   (results.map (fun r => r.storageCost)).sum,
   results.length,
   (results.map (fun r => r.blobId)).dedup.length,
   duplicates,
   decide (0 < duplicates)⟩

/-- Return value of `process_images`, together with the final marker
filesystem (the function's side effect on disk). -/
structure SimRun where
  results : List SimResult
  errors : List SimError
  totals : SimTotals
  fs : FS
deriving DecidableEq

/-- `process_images` (lines 113-168): fresh wipe, selection, executor loop,
verify-gated duplicate count, clean sweep, totals. -/
def process_images (fs : FS) (items : List SimItem)
    (resume fresh verify clean : Bool) : SimRun :=
  let fs1 := if fresh then deleteMarkers fs items else fs
  let tasks := selectTasks resume fs1 items
  let o := runTasks fs1 tasks
  let duplicates :=
    if verify then o.results.length - (o.results.map (fun r => r.blobId)).dedup.length
    else 0
  let fs2 := if clean then deleteMarkers o.fs items else o.fs
  ⟨o.results, o.errors, simTotals o.results duplicates, fs2⟩

/-- A run of `process_images` cut short by `KeyboardInterrupt` after `k`
tasks have completed: the loop has written the markers of the successful
items among the first `k` selected tasks, and neither the verification step
nor the `clean` sweep is reached.  Only the filesystem survives the
exception. -/
def process_images_interrupted (fs : FS) (items : List SimItem)
    (resume fresh : Bool) (k : Nat) : FS :=
  let fs1 := if fresh then deleteMarkers fs items else fs
  (runTasks fs1 ((selectTasks resume fs1 items).take k)).fs

/-- The `simulate` command's interrupt handler (cli.py lines 54-67): once
the `KeyboardInterrupt` is caught, `process_images` is re-run exactly once
with `resume=False`, `fresh=False`, `clean=False` and the caller's
`verify`. -/
def simulate_cli_interrupted (fs : FS) (items : List SimItem)
    (resume fresh verify : Bool) (k : Nat) : SimRun :=
  process_images (process_images_interrupted fs items resume fresh k) items
    false false verify false

/-! ## Upload path: `get_balances` and `upload_images`,
processor.py lines 31-109 -/

/-- `get_balances` (lines 31-50): one pass over the token groups of
`balances[0]`, keeping the last `SUI` / `WAL` balance seen (both
initialised to 0).  Each group is modelled by its metadata symbol and the
first coin's integer balance; the final division of both balances by 10^9
is the uniform frost-to-token conversion and is left implicit (amounts
stay in frost), so a missing symbol and a zero balance both come out as
`0`, exactly as in the source. -/
def get_balances (balances : List (String × Nat)) : Nat × Nat :=
  balances.foldl
    (fun (acc : Nat × Nat) g =>
      if g.1 == "SUI" then (g.2, acc.2)
      else if g.1 == "WAL" then (acc.1, g.2)
      else acc)
    (0, 0)

/-- One input file of the upload loop together with the externally
determined behaviour of the two client calls on it: whether the dry run
succeeds and the cost it reports, and whether the real store succeeds and
the blob fields it reports. -/
structure UploadItem where
  name : String
  dryOk : Bool
  storageCost : Nat
  realOk : Bool
  blobId : String
  size : Nat
  cost : Nat
  sharedBlobObject : String
  errMsg : String
deriving DecidableEq

/-- The success record appended by `upload_images` (lines 81-87). -/
structure UploadResult where
  name : String
  blobId : String
  size : Nat
  cost : Nat
  sharedBlobObject : String
deriving DecidableEq

/-- The error record `{"image": ..., "error": ...}` (line 92). -/
structure UploadError where
  image : String
  error : String
deriving DecidableEq

/-- Outcome of the admission/store loop: the two outcome lists, the names of
the items for which the real (non-dry-run) store command was invoked, and
the final value of the running `wal_available` counter. -/
structure ULoopOut where
  results : List UploadResult
  errors : List UploadError
  admitted : List String
  wal_available : Int
deriving DecidableEq

/-- The admission/store loop of `upload_images` (lines 68-92): per item, a
dry-run estimate; if the estimated cost exceeds the running counter a
`RuntimeError` is raised and caught into `errors`; otherwise the real store
runs, and only on its success is the result recorded and the estimate
subtracted from the counter.  Any exception lands in `errors` and the loop
continues with the next item.  The counter and the costs are in frost; the
source compares and subtracts the same quantities divided by 10^9. -/
def uploadLoop (avail : Int) : List UploadItem → ULoopOut
  | [] => ⟨[], [], [], avail⟩
  | it :: rest =>
    if it.dryOk then
      let cost : Int := (it.storageCost : Int)
      if cost > avail then
        let o := uploadLoop avail rest
        ⟨o.results,
         ⟨it.name, "❌ Not enough WAL balance to store " ++ it.name⟩ :: o.errors,
         o.admitted, o.wal_available⟩
      else if it.realOk then
        let o := uploadLoop (avail - cost) rest
        ⟨⟨it.name, it.blobId, it.size, it.cost, it.sharedBlobObject⟩ :: o.results,
         o.errors, it.name :: o.admitted, o.wal_available⟩
      else
        let o := uploadLoop avail rest
        ⟨o.results, ⟨it.name, it.errMsg⟩ :: o.errors,
         it.name :: o.admitted, o.wal_available⟩
    else
      let o := uploadLoop avail rest
      ⟨o.results, ⟨it.name, it.errMsg⟩ :: o.errors, o.admitted, o.wal_available⟩

/-- The totals dict of `upload_images` (lines 94-108), wallet snapshot
included. -/
structure UploadTotals where
  unencoded : Nat
  encoded : Nat
  cost : Nat
  totalBlobIds : Nat
  uniqueBlobIds : Nat
  duplicateBlobIds : Nat
  hasDuplicates : Bool
  sui_balance : Nat
  wal_balance : Nat
deriving DecidableEq

/-- Builds the totals dict of `upload_images` from the results: `encoded`
is assigned the same `total_size` sum as `unencoded` (line 98), and the
uniqueness fields are always computed.  `cost` and the wallet snapshot are
in frost (the source divides each of them by 10^9 for display). -/
def uploadTotals (sui_balance wal_balance : Nat) (results : List UploadResult) : UploadTotals :=
  ⟨(results.map (fun r => r.size)).sum,
   (results.map (fun r => r.size)).sum,
   (results.map (fun r => r.cost)).sum,
   results.length,
   (results.map (fun r => r.blobId)).dedup.length,
   results.length - (results.map (fun r => r.blobId)).dedup.length,
   decide (results.length ≠ (results.map (fun r => r.blobId)).dedup.length),
   sui_balance, wal_balance⟩

/-- Return value of a completed `upload_images` call. -/
structure UploadRun where
  results : List UploadResult
  errors : List UploadError
  admitted : List String
  totals : UploadTotals
deriving DecidableEq

/-- `upload_images` (lines 52-109): balance query and pre-flight checks
(`if not sui_balance or sui_balance <= 0` and `if not wal_balance`, Python
float truthiness meaning equality with zero), then the admission/store
loop and the totals.  A raised pre-flight `RuntimeError` is the `error`
case. -/
def upload_images (balances : List (String × Nat)) (items : List UploadItem) :
    Except String UploadRun :=
  let sui_balance := (get_balances balances).1
  let wal_balance := (get_balances balances).2
  if sui_balance = 0 ∨ sui_balance ≤ 0 then
    Except.error "❌ SUI balance is missing or zero."
  else if wal_balance = 0 then
    Except.error "❌ WAL/FROST balance not found."
  else
    let o := uploadLoop (wal_balance : Int) items
    Except.ok ⟨o.results, o.errors, o.admitted,
      uploadTotals sui_balance wal_balance o.results⟩

/-- Specification-side admission rule (stated from the amended wording of
the admission-control property, to be compared with `uploadLoop`): an item
is admitted exactly when its dry run succeeds and its estimated cost is at
most the running available balance; the balance decreases by the estimate
only when the item's real store succeeds. -/
def greedyAdmittedNames (avail : Int) : List UploadItem → List String
  | [] => []
  | it :: rest =>
    let cost : Int := (it.storageCost : Int)
    if it.dryOk = true ∧ cost ≤ avail then
      it.name :: greedyAdmittedNames (if it.realOk then avail - cost else avail) rest
    else
      greedyAdmittedNames avail rest

/-! ## Helper lemmas -/

theorem runTasks_cons_ok (fs : FS) (it : SimItem) (rest : List SimItem) (h : it.ok = true) :
    runTasks fs (it :: rest) =
      ⟨⟨it.stem, it.blobId, it.unencodedSize, it.encodedSize, it.storageCost, it.encodingType⟩
          :: (runTasks (fs.insert (markerPath it.stem)) rest).results,
        (runTasks (fs.insert (markerPath it.stem)) rest).errors,
        (runTasks (fs.insert (markerPath it.stem)) rest).fs⟩ := by
  simp [runTasks, simulate_image, h]

theorem runTasks_cons_fail (fs : FS) (it : SimItem) (rest : List SimItem) (h : it.ok = false) :
    runTasks fs (it :: rest) =
      ⟨(runTasks fs rest).results,
        ⟨it.stem, it.errMsg⟩ :: (runTasks fs rest).errors,
        (runTasks fs rest).fs⟩ := by
  simp [runTasks, simulate_image, h]

/-- Every selected task contributes exactly one outcome. -/
theorem runTasks_count (fs : FS) (ts : List SimItem) :
    (runTasks fs ts).results.length + (runTasks fs ts).errors.length = ts.length := by
  induction ts generalizing fs with
  | nil => rfl
  | cons it rest ih =>
    cases h : it.ok with
    | false =>
      rw [runTasks_cons_fail fs it rest h]
      have := ih fs
      simp only [List.length_cons]
      omega
    | true =>
      rw [runTasks_cons_ok fs it rest h]
      have := ih (fs.insert (markerPath it.stem))
      simp only [List.length_cons]
      omega

/-- The results of the executor loop are exactly the successful tasks, in
order. -/
theorem runTasks_results_map (fs : FS) (ts : List SimItem) :
    (runTasks fs ts).results.map (fun r => r.img_path)
      = (ts.filter (fun it => it.ok)).map (fun it => it.stem) := by
  induction ts generalizing fs with
  | nil => rfl
  | cons it rest ih =>
    cases h : it.ok with
    | false =>
      rw [runTasks_cons_fail fs it rest h]
      simp [List.filter_cons, h, ih fs]
    | true =>
      rw [runTasks_cons_ok fs it rest h]
      simp [List.filter_cons, h, ih (fs.insert (markerPath it.stem))]

/-- The executor loop only adds marker files, it never removes one. -/
theorem runTasks_fs_mono (fs : FS) (ts : List SimItem) : fs ⊆ (runTasks fs ts).fs := by
  induction ts generalizing fs with
  | nil => exact fun a ha => ha
  | cons it rest ih =>
    cases h : it.ok with
    | false =>
      rw [runTasks_cons_fail fs it rest h]
      exact ih fs
    | true =>
      rw [runTasks_cons_ok fs it rest h]
      intro a ha
      exact ih (fs.insert (markerPath it.stem)) (by simp [List.mem_insert_iff, ha])

/-- A successful task's marker is present after the executor loop. -/
theorem runTasks_marker_mem (fs : FS) (ts : List SimItem) (it : SimItem)
    (hmem : it ∈ ts) (hok : it.ok = true) :
    markerPath it.stem ∈ (runTasks fs ts).fs := by
  induction ts generalizing fs with
  | nil => cases hmem
  | cons hd rest ih =>
    rcases List.mem_cons.mp hmem with heq | hmem'
    · subst heq
      rw [runTasks_cons_ok fs it rest hok]
      exact runTasks_fs_mono _ _ (by simp [List.mem_insert_iff])
    · cases h : hd.ok with
      | false =>
        rw [runTasks_cons_fail fs hd rest h]
        exact ih fs hmem'
      | true =>
        rw [runTasks_cons_ok fs hd rest h]
        exact ih (fs.insert (markerPath hd.stem)) hmem'

/-- The fresh wipe removes the marker of every candidate. -/
theorem marker_not_mem_deleteMarkers (fs : FS) (items : List SimItem) (it : SimItem)
    (h : it ∈ items) : markerPath it.stem ∉ deleteMarkers fs items := by
  intro hm
  rcases List.mem_filter.mp hm with ⟨-, hp⟩
  rw [Bool.not_eq_eq_eq_not, Bool.not_true, List.any_eq_false] at hp
  exact absurd (beq_self_eq_true (markerPath it.stem))
    (by simpa using hp it h)

/-- Default-mode selection is empty as soon as every candidate's marker
exists. -/
theorem selectTasks_false_eq_nil (fs : FS) (items : List SimItem)
    (h : ∀ it ∈ items, markerPath it.stem ∈ fs) :
    selectTasks false fs items = [] := by
  apply List.eq_nil_iff_forall_not_mem.mpr
  intro it hit
  rcases List.mem_filter.mp hit with ⟨h1, h2⟩
  simp [h it h1] at h2

/-- Each upload item contributes exactly one outcome to the upload loop. -/
theorem uploadLoop_count (avail : Int) (items : List UploadItem) :
    (uploadLoop avail items).results.length + (uploadLoop avail items).errors.length
      = items.length := by
  induction items generalizing avail with
  | nil => rfl
  | cons it rest ih =>
    cases hd : it.dryOk with
    | false =>
      have := ih avail
      simp [uploadLoop, hd]
      omega
    | true =>
      by_cases hc : ((it.storageCost : Int) > avail)
      · have := ih avail
        simp [uploadLoop, hd, hc]
        omega
      · cases hr : it.realOk with
        | false =>
          have := ih avail
          simp [uploadLoop, hd, hc, hr]
          omega
        | true =>
          have := ih (avail - (it.storageCost : Int))
          simp [uploadLoop, hd, hc, hr]
          omega

/-- The admitted-set of the upload loop agrees with the greedy first-fit
admission rule. -/
theorem uploadLoop_admitted (avail : Int) (items : List UploadItem) :
    (uploadLoop avail items).admitted = greedyAdmittedNames avail items := by
  induction items generalizing avail with
  | nil => rfl
  | cons it rest ih =>
    cases hd : it.dryOk with
    | false =>
      simp [uploadLoop, greedyAdmittedNames, hd, ih avail]
    | true =>
      by_cases hc : ((it.storageCost : Int) > avail)
      · have hc' : ¬ ((it.storageCost : Int) ≤ avail) := not_le.mpr hc
        simp [uploadLoop, greedyAdmittedNames, hd, hc, hc', ih avail]
      · have hc' : ((it.storageCost : Int) ≤ avail) := not_lt.mp hc
        cases hr : it.realOk with
        | false =>
          simp [uploadLoop, greedyAdmittedNames, hd, hc, hc', hr, ih avail]
        | true =>
          simp [uploadLoop, greedyAdmittedNames, hd, hc, hc', hr,
            ih (avail - (it.storageCost : Int))]

/-- Inversion of a successful `upload_images` call. -/
theorem upload_images_ok (balances : List (String × Nat)) (items : List UploadItem)
    (run : UploadRun) (h : upload_images balances items = Except.ok run) :
    run = ⟨(uploadLoop ((get_balances balances).2 : Int) items).results,
      (uploadLoop ((get_balances balances).2 : Int) items).errors,
      (uploadLoop ((get_balances balances).2 : Int) items).admitted,
      uploadTotals (get_balances balances).1 (get_balances balances).2
        (uploadLoop ((get_balances balances).2 : Int) items).results⟩ := by
  simp only [upload_images] at h
  split at h
  · exact absurd h (by simp)
  · split at h
    · exact absurd h (by simp)
    · exact (Except.ok.inj h).symm

/-- The deduplicated blob-id list is never longer than the result list. -/
theorem dedupBlobIds_length_le (rs : List UploadResult) :
    (rs.map (fun r => r.blobId)).dedup.length ≤ rs.length := by
  have h := (List.dedup_sublist (rs.map (fun r => r.blobId))).length_le
  simpa using h

/-! ## Claims -/

/-- C1 counterexample: with WAL balance 10 frost and dry-run costs 20 and 5
frost (all client calls succeeding), the upload loop rejects the first item
for insufficient balance and still admits the second, so the admitted set
is not the largest affordable prefix of the enumeration (which is empty)
and a later, cheaper item is admitted after an earlier item was rejected. -/
theorem claim_C1_counterexample :
    (upload_images [("SUI", 1000000000), ("WAL", 10)]
        [⟨"a", true, 20, true, "BA", 1, 7, "", "dry a"⟩,
         ⟨"b", true, 5, true, "BB", 2, 7, "", "dry b"⟩]).map (fun r => r.admitted)
      = Except.ok ["b"]
  ∧ (upload_images [("SUI", 1000000000), ("WAL", 10)]
        [⟨"a", true, 20, true, "BA", 1, 7, "", "dry a"⟩,
         ⟨"b", true, 5, true, "BB", 2, 7, "", "dry b"⟩]).map
          (fun r => r.errors.map (fun e => e.image))
      = Except.ok ["a"] :=
  ⟨rfl, rfl⟩

/-- C1 (amended): on the upload path admission is greedy first-fit in
enumeration order, not largest-prefix: an item is admitted (the real store
operation is performed) exactly when its dry run succeeds and its estimated
cost is at most the running available balance, where the balance starts at
the WAL balance and decreases by an item's estimated cost only when that
item's real store succeeds; rejecting an earlier item does not prevent the
admission of a later, cheaper one. -/
theorem claim_C1 :
    (∀ avail items, (uploadLoop avail items).admitted = greedyAdmittedNames avail items)
  ∧ (∀ balances items run, upload_images balances items = Except.ok run →
      run.admitted = greedyAdmittedNames ((get_balances balances).2 : Int) items) := by
  refine ⟨uploadLoop_admitted, fun balances items run h => ?_⟩
  rw [upload_images_ok balances items run h]
  exact uploadLoop_admitted _ _

/-- C1 witness: the amended characterisation applied at a concrete input. -/
theorem claim_C1_witness :
    (⟨[⟨"b", "BB", 2, 7, ""⟩], [⟨"a", "❌ Not enough WAL balance to store a"⟩], ["b"],
        uploadTotals 1000000000 10 [⟨"b", "BB", 2, 7, ""⟩]⟩ : UploadRun).admitted
      = greedyAdmittedNames ((get_balances [("SUI", 1000000000), ("WAL", 10)]).2 : Int)
          [⟨"a", true, 20, true, "BA", 1, 7, "", "dry a"⟩,
           ⟨"b", true, 5, true, "BB", 2, 7, "", "dry b"⟩] :=
  claim_C1.2 [("SUI", 1000000000), ("WAL", 10)]
    [⟨"a", true, 20, true, "BA", 1, 7, "", "dry a"⟩,
     ⟨"b", true, 5, true, "BB", 2, 7, "", "dry b"⟩] _ rfl

/-- C2 (code bug): the source comment on the WAL pre-flight check says
"Only checking if None, allowing zero balance", but `if not wal_balance:`
is also true for a float value of exactly 0.0, so a wallet whose WAL coin
balance is exactly 0 aborts the whole run before any item is processed,
instead of proceeding and rejecting each item individually as the claim
(and the comment) state. -/
theorem claim_C2 :
    upload_images [("SUI", 1000000000), ("WAL", 0)]
        [⟨"a", true, 0, true, "BA", 1, 7, "", "dry a"⟩]
      = Except.error "❌ WAL/FROST balance not found." :=
  rfl

/-- C3: on both paths every selected item yields exactly one outcome, so
the results count plus the errors count equals the number of selected
items (on the upload path every enumerated item is selected). -/
theorem claim_C3 :
    (∀ fs items resume fresh verify clean,
      (process_images fs items resume fresh verify clean).results.length
        + (process_images fs items resume fresh verify clean).errors.length
        = (selectedItems fs items resume fresh).length)
  ∧ (∀ balances items run, upload_images balances items = Except.ok run →
      run.results.length + run.errors.length = items.length) := by
  constructor
  · intro fs items resume fresh verify clean
    simpa [process_images, selectedItems] using
      runTasks_count (if fresh then deleteMarkers fs items else fs)
        (selectTasks resume (if fresh then deleteMarkers fs items else fs) items)
  · intro balances items run h
    rw [upload_images_ok balances items run h]
    exact uploadLoop_count _ _

/-- C3 witness: the upload-path conjunct applied at a concrete input. -/
theorem claim_C3_witness :
    (⟨[], [⟨"a", "❌ Not enough WAL balance to store a"⟩], [],
        uploadTotals 1000000000 10 []⟩ : UploadRun).results.length
      + (⟨[], [⟨"a", "❌ Not enough WAL balance to store a"⟩], [],
          uploadTotals 1000000000 10 []⟩ : UploadRun).errors.length
      = [(⟨"a", true, 20, true, "BA", 1, 7, "", "dry a"⟩ : UploadItem)].length :=
  claim_C3.2 [("SUI", 1000000000), ("WAL", 10)]
    [⟨"a", true, 20, true, "BA", 1, 7, "", "dry a"⟩] _ rfl

/-- C4 counterexample: `run_walrus_command` does not raise on a non-zero
exit status: with exit code 1 and well-formed JSON-array output it still
returns the first record. -/
theorem claim_C4_counterexample :
    run_walrus_command 1 (some (Json.arr [Json.obj [("blobId", Json.str "B")]]))
      = Except.ok (Json.obj [("blobId", Json.str "B")]) :=
  rfl

/-- C4 (amended): `run_walrus_command` never examines the exit status (the
result is the same for any two exit codes); it raises exactly when the
standard output is not well-formed JSON or when the decoded value has no
extractable first element (empty array, object, number, boolean or null
top level); on a non-empty JSON array it returns the first record. -/
theorem claim_C4 :
    (∀ ec ec' out, run_walrus_command ec out = run_walrus_command ec' out)
  ∧ (∀ ec, ∃ e, run_walrus_command ec none = Except.error e)
  ∧ (∀ ec x xs, run_walrus_command ec (some (Json.arr (x :: xs))) = Except.ok x)
  ∧ (∀ ec, ∃ e, run_walrus_command ec (some (Json.arr [])) = Except.error e)
  ∧ (∀ ec kvs, ∃ e, run_walrus_command ec (some (Json.obj kvs)) = Except.error e)
  ∧ (∀ ec n, ∃ e, run_walrus_command ec (some (Json.num n)) = Except.error e)
  ∧ (∀ ec b, ∃ e, run_walrus_command ec (some (Json.bool b)) = Except.error e)
  ∧ (∀ ec, ∃ e, run_walrus_command ec (some Json.null) = Except.error e) :=
  ⟨fun _ _ _ => rfl, fun _ => ⟨_, rfl⟩, fun _ _ _ => rfl, fun _ => ⟨_, rfl⟩,
   fun _ _ => ⟨_, rfl⟩, fun _ _ => ⟨_, rfl⟩, fun _ _ => ⟨_, rfl⟩, fun _ => ⟨_, rfl⟩⟩

/-- C5 counterexample: two default-mode double runs whose second selection
is non-empty: (a) an item whose simulate call fails gets no marker and is
selected again by the second run; (b) with the cleanup flag set (the CLI
default) the marker written by a fully successful run is deleted at end of
run and the item is selected again. -/
theorem claim_C5_counterexample :
    selectedItems
        (process_images [] [⟨"a", false, "B", 1, 2, 3, "", "boom"⟩] false false false false).fs
        [⟨"a", false, "B", 1, 2, 3, "", "boom"⟩] false false
      = [⟨"a", false, "B", 1, 2, 3, "", "boom"⟩]
  ∧ selectedItems
        (process_images [] [⟨"a", true, "B", 1, 2, 3, "", ""⟩] false false false true).fs
        [⟨"a", true, "B", 1, 2, 3, "", ""⟩] false false
      = [⟨"a", true, "B", 1, 2, 3, "", ""⟩] :=
  ⟨rfl, rfl⟩

/-- C5 (amended): if end-of-run cleanup is disabled and every item selected
by the first default-mode run succeeds, then a second default-mode run with
no external state change selects the empty set, because every successful
item's marker was written and every skipped item's marker already
existed. -/
theorem claim_C5 (fs : FS) (items : List SimItem) (verify : Bool)
    (hok : ∀ it ∈ selectedItems fs items false false, it.ok = true) :
    selectedItems (process_images fs items false false verify false).fs
      items false false = [] := by
  have hfs : (process_images fs items false false verify false).fs
      = (runTasks fs (selectTasks false fs items)).fs := by
    simp [process_images]
  show selectTasks false (process_images fs items false false verify false).fs items = []
  rw [hfs]
  apply selectTasks_false_eq_nil
  intro it hit
  by_cases hmem : markerPath it.stem ∈ fs
  · exact runTasks_fs_mono _ _ hmem
  · have hsel : it ∈ selectTasks false fs items :=
      List.mem_filter.mpr ⟨hit, by simp [hmem]⟩
    exact runTasks_marker_mem fs _ it hsel (hok it hsel)

/-- C5 witness: the amended idempotence applied at a concrete input. -/
theorem claim_C5_witness :
    (∀ it ∈ selectedItems [] [⟨"a", true, "B", 1, 2, 3, "", ""⟩] false false, it.ok = true)
  ∧ selectedItems
      (process_images [] [⟨"a", true, "B", 1, 2, 3, "", ""⟩] false false false false).fs
      [⟨"a", true, "B", 1, 2, 3, "", ""⟩] false false = [] :=
  ⟨by decide, claim_C5 [] [⟨"a", true, "B", 1, 2, 3, "", ""⟩] false (by decide)⟩

/-- C6 counterexample: interrupt after the first of two items: item a's
marker was persisted before the signal, yet the recovery run's final
report contains exactly the other item b (which it re-processes from
scratch) and not a, so the report does not reflect the items whose marker
was persisted before the signal. -/
theorem claim_C6_counterexample :
    process_images_interrupted []
        [⟨"a", true, "BA", 1, 2, 3, "", ""⟩, ⟨"b", true, "BB", 1, 2, 3, "", ""⟩]
        false false 1
      = ["a.json"]
  ∧ (simulate_cli_interrupted []
        [⟨"a", true, "BA", 1, 2, 3, "", ""⟩, ⟨"b", true, "BB", 1, 2, 3, "", ""⟩]
        false false false 1).results.map (fun r => r.img_path)
      = ["b"] :=
  ⟨rfl, rfl⟩

/-- C6 (amended): when an interrupt is raised during a simulate run, the
handler performs exactly one corrective re-run with no fresh wipe and no
cleanup deletion, so every marker persisted before the signal survives to
the end of the recovery run; but the re-run uses default selection, so it
re-processes exactly the candidates whose marker is absent when the signal
arrives, and the final report reflects exactly those items rather than the
items whose marker was persisted before the signal. -/
theorem claim_C6 (fs : FS) (items : List SimItem) (resume fresh verify : Bool) (k : Nat) :
    process_images_interrupted fs items resume fresh k
        ⊆ (simulate_cli_interrupted fs items resume fresh verify k).fs
  ∧ (simulate_cli_interrupted fs items resume fresh verify k).results.map
        (fun r => r.img_path)
      = ((selectedItems (process_images_interrupted fs items resume fresh k) items
            false false).filter (fun it => it.ok)).map (fun it => it.stem)
  ∧ (simulate_cli_interrupted fs items resume fresh verify k).results.length
      + (simulate_cli_interrupted fs items resume fresh verify k).errors.length
      = (selectedItems (process_images_interrupted fs items resume fresh k) items
          false false).length := by
  simp only [simulate_cli_interrupted]
  generalize process_images_interrupted fs items resume fresh k = X
  have hfs : (process_images X items false false verify false).fs
      = (runTasks X (selectTasks false X items)).fs := by
    simp [process_images]
  have hres : (process_images X items false false verify false).results
      = (runTasks X (selectTasks false X items)).results := by
    simp [process_images]
  have herr : (process_images X items false false verify false).errors
      = (runTasks X (selectTasks false X items)).errors := by
    simp [process_images]
  refine ⟨?_, ?_, ?_⟩
  · rw [hfs]
    exact runTasks_fs_mono _ _
  · rw [hres]
    exact runTasks_results_map _ _
  · rw [hres, herr]
    exact runTasks_count _ _

/-- C6 witness: the amended statement applied at a concrete input. -/
theorem claim_C6_witness :
    process_images_interrupted [] [⟨"a", true, "BA", 1, 2, 3, "", ""⟩] false false 1
        ⊆ (simulate_cli_interrupted [] [⟨"a", true, "BA", 1, 2, 3, "", ""⟩]
            false false false 1).fs
  ∧ (simulate_cli_interrupted [] [⟨"a", true, "BA", 1, 2, 3, "", ""⟩]
        false false false 1).results.map (fun r => r.img_path)
      = ((selectedItems
            (process_images_interrupted [] [⟨"a", true, "BA", 1, 2, 3, "", ""⟩] false false 1)
            [⟨"a", true, "BA", 1, 2, 3, "", ""⟩] false false).filter
          (fun it => it.ok)).map (fun it => it.stem)
  ∧ (simulate_cli_interrupted [] [⟨"a", true, "BA", 1, 2, 3, "", ""⟩]
        false false false 1).results.length
      + (simulate_cli_interrupted [] [⟨"a", true, "BA", 1, 2, 3, "", ""⟩]
          false false false 1).errors.length
      = (selectedItems
          (process_images_interrupted [] [⟨"a", true, "BA", 1, 2, 3, "", ""⟩] false false 1)
          [⟨"a", true, "BA", 1, 2, 3, "", ""⟩] false false).length :=
  claim_C6 [] [⟨"a", true, "BA", 1, 2, 3, "", ""⟩] false false false 1

/-- C7: duplicate accounting: the duplicate count is the number of results
minus the number of distinct blob identifiers and hasDuplicates holds
exactly when that count is positive; on the upload path this is always
computed, on the simulate path it is gated by the verify flag (when verify
is off the reported duplicate count is zero and hasDuplicates is false
regardless of the results); results with blob identifiers A, A, B, C give
duplicate count 1, unique count 3 and hasDuplicates true. -/
theorem claim_C7 :
    (∀ sui wal rs,
        (uploadTotals sui wal rs).duplicateBlobIds
          = rs.length - (rs.map (fun r => r.blobId)).dedup.length
      ∧ ((uploadTotals sui wal rs).hasDuplicates = true
          ↔ 0 < (uploadTotals sui wal rs).duplicateBlobIds))
  ∧ (∀ fs items resume fresh clean,
        (process_images fs items resume fresh true clean).totals.duplicateBlobIds
          = (process_images fs items resume fresh true clean).totals.totalBlobIds
            - (process_images fs items resume fresh true clean).totals.uniqueBlobIds
      ∧ ((process_images fs items resume fresh true clean).totals.hasDuplicates = true
          ↔ 0 < (process_images fs items resume fresh true clean).totals.duplicateBlobIds))
  ∧ (∀ fs items resume fresh clean,
        (process_images fs items resume fresh false clean).totals.duplicateBlobIds = 0
      ∧ (process_images fs items resume fresh false clean).totals.hasDuplicates = false)
  ∧ ((uploadTotals 1 1
        [⟨"r1", "A", 1, 1, ""⟩, ⟨"r2", "A", 1, 1, ""⟩, ⟨"r3", "B", 1, 1, ""⟩,
         ⟨"r4", "C", 1, 1, ""⟩]).duplicateBlobIds = 1
    ∧ (uploadTotals 1 1
        [⟨"r1", "A", 1, 1, ""⟩, ⟨"r2", "A", 1, 1, ""⟩, ⟨"r3", "B", 1, 1, ""⟩,
         ⟨"r4", "C", 1, 1, ""⟩]).uniqueBlobIds = 3
    ∧ (uploadTotals 1 1
        [⟨"r1", "A", 1, 1, ""⟩, ⟨"r2", "A", 1, 1, ""⟩, ⟨"r3", "B", 1, 1, ""⟩,
         ⟨"r4", "C", 1, 1, ""⟩]).hasDuplicates = true) := by
  refine ⟨fun sui wal rs => ⟨rfl, ?_⟩,
    fun fs items resume fresh clean => ⟨?_, ?_⟩,
    fun fs items resume fresh clean => ⟨?_, ?_⟩, by decide⟩
  · have hle := dedupBlobIds_length_le rs
    simp only [uploadTotals, decide_eq_true_eq]
    omega
  · simp [process_images, simTotals]
  · simp [process_images, simTotals, decide_eq_true_eq]
  · simp [process_images, simTotals]
  · simp [process_images, simTotals]

/-- C8: with both resume and fresh set, the fresh wipe first deletes every
candidate's marker and the resume filter then keeps only candidates whose
marker exists, so the selected set is empty and both outcome lists are
empty. -/
theorem claim_C8 (fs : FS) (items : List SimItem) (verify clean : Bool) :
    selectedItems fs items true true = []
  ∧ (process_images fs items true true verify clean).results = []
  ∧ (process_images fs items true true verify clean).errors = [] := by
  have hsel : selectTasks true (deleteMarkers fs items) items = [] := by
    apply List.eq_nil_iff_forall_not_mem.mpr
    intro it hit
    rcases List.mem_filter.mp hit with ⟨h1, h2⟩
    have hnm := marker_not_mem_deleteMarkers fs items it h1
    simp [hnm] at h2
  refine ⟨hsel, ?_, ?_⟩
  · simp [process_images, hsel, runTasks]
  · simp [process_images, hsel, runTasks]

/-- C9: on the simulate path uniqueBlobIds is always the true distinct
count of blob identifiers across results, even when verify is off; when
duplicates exist and verify is off the totals are therefore internally
inconsistent: totalBlobIds minus uniqueBlobIds is positive while
duplicateBlobIds is 0 and hasDuplicates is false. -/
theorem claim_C9 :
    (∀ fs items resume fresh verify clean,
        (process_images fs items resume fresh verify clean).totals.uniqueBlobIds
          = ((process_images fs items resume fresh verify clean).results.map
              (fun r => r.blobId)).dedup.length)
  ∧ (∀ fs items resume fresh clean,
        (process_images fs items resume fresh false clean).totals.duplicateBlobIds = 0
      ∧ (process_images fs items resume fresh false clean).totals.hasDuplicates = false)
  ∧ ((process_images []
        [⟨"a", true, "DUP", 1, 1, 1, "", ""⟩, ⟨"b", true, "DUP", 1, 1, 1, "", ""⟩]
        false false false false).totals.totalBlobIds = 2
    ∧ (process_images []
        [⟨"a", true, "DUP", 1, 1, 1, "", ""⟩, ⟨"b", true, "DUP", 1, 1, 1, "", ""⟩]
        false false false false).totals.uniqueBlobIds = 1
    ∧ 0 < (process_images []
        [⟨"a", true, "DUP", 1, 1, 1, "", ""⟩, ⟨"b", true, "DUP", 1, 1, 1, "", ""⟩]
        false false false false).totals.totalBlobIds
        - (process_images []
            [⟨"a", true, "DUP", 1, 1, 1, "", ""⟩, ⟨"b", true, "DUP", 1, 1, 1, "", ""⟩]
            false false false false).totals.uniqueBlobIds
    ∧ (process_images []
        [⟨"a", true, "DUP", 1, 1, 1, "", ""⟩, ⟨"b", true, "DUP", 1, 1, 1, "", ""⟩]
        false false false false).totals.duplicateBlobIds = 0
    ∧ (process_images []
        [⟨"a", true, "DUP", 1, 1, 1, "", ""⟩, ⟨"b", true, "DUP", 1, 1, 1, "", ""⟩]
        false false false false).totals.hasDuplicates = false) := by
  refine ⟨fun fs items resume fresh verify clean => ?_,
    fun fs items resume fresh clean => ⟨?_, ?_⟩, by decide⟩
  · simp [process_images, simTotals]
  · simp [process_images, simTotals]
  · simp [process_images, simTotals]

/-- C10: on the upload path the encoded byte total always equals the
unencoded byte total, both being the sum of the per-result blob sizes; no
separate encoded size is measured for real store operations. -/
theorem claim_C10 :
    (∀ sui wal rs,
        (uploadTotals sui wal rs).encoded = (uploadTotals sui wal rs).unencoded
      ∧ (uploadTotals sui wal rs).unencoded = (rs.map (fun r => r.size)).sum)
  ∧ (∀ balances items run, upload_images balances items = Except.ok run →
      run.totals.encoded = run.totals.unencoded
      ∧ run.totals.unencoded = (run.results.map (fun r => r.size)).sum) := by
  refine ⟨fun sui wal rs => ⟨rfl, rfl⟩, fun balances items run h => ?_⟩
  rw [upload_images_ok balances items run h]
  exact ⟨rfl, rfl⟩

/-- C10 witness: the upload-path conjunct applied at a concrete input. -/
theorem claim_C10_witness :
    (⟨[⟨"b", "BB", 2, 7, ""⟩], [], ["b"],
        uploadTotals 1000000000 10 [⟨"b", "BB", 2, 7, ""⟩]⟩ : UploadRun).totals.encoded
      = (⟨[⟨"b", "BB", 2, 7, ""⟩], [], ["b"],
          uploadTotals 1000000000 10 [⟨"b", "BB", 2, 7, ""⟩]⟩ : UploadRun).totals.unencoded
  ∧ (⟨[⟨"b", "BB", 2, 7, ""⟩], [], ["b"],
        uploadTotals 1000000000 10 [⟨"b", "BB", 2, 7, ""⟩]⟩ : UploadRun).totals.unencoded
      = ((⟨[⟨"b", "BB", 2, 7, ""⟩], [], ["b"],
          uploadTotals 1000000000 10 [⟨"b", "BB", 2, 7, ""⟩]⟩ : UploadRun).results.map
          (fun r => r.size)).sum :=
  claim_C10.2 [("SUI", 1000000000), ("WAL", 10)]
    [⟨"b", true, 5, true, "BB", 2, 7, "", ""⟩] _ rfl

end WalrusSim
